import Mathlib

/-!
Verification of the pipeline orchestration core of the avatar AI serverless
backend (`src/backend/avatar_ai_services.py` and `src/backend/main.py`).

The Python code is shallowly embedded: the external providers (speech
recognition, language model, speech synthesis, avatar rendering, blob
storage) are represented by their outcomes (`Except`/`Option` values), and
the orchestration logic — sequencing, short-circuiting on failure,
conversation-history maintenance, truncation, caching fallback, connection
registry — is translated function by function from the source.
-/

namespace AvatarAI

/-! ## Conversation store

`ServerlessAvatarPipeline._update_conversation_history` appends the pair
`{role: "user"}, {role: "assistant"}` to the user's history and keeps only
the last 20 messages (`self.user_sessions[user_id][-20:]`).
-/

/-- One message of a conversation history: `{"role": ..., "content": ...}`. -/
structure Turn where
  role : String
  content : String
deriving DecidableEq

/-- Embedding of `ServerlessAvatarPipeline._update_conversation_history`
restricted to one user's history list: extend by the user/assistant pair,
then trim to the last 20 entries when the length exceeds 20
(Python `[-20:]`, i.e. drop all but the last 20). -/
def updateConversationHistory (h : List Turn) (userMessage aiResponse : String) :
    List Turn :=
  let h' := h ++ [⟨"user", userMessage⟩, ⟨"assistant", aiResponse⟩]
  if h'.length > 20 then h'.drop (h'.length - 20) else h'

/-- The flat turn list produced by a sequence of (user, assistant) exchanges. -/
def toTurns : List (String × String) → List Turn
  | [] => []
  | e :: rest => ⟨"user", e.1⟩ :: ⟨"assistant", e.2⟩ :: toTurns rest

/-- The history of one user after a sequence of exchanges, starting from the
empty history (absent map entries are treated as empty by
`self.user_sessions.get(user_id, [])`). -/
def historyOf (exs : List (String × String)) : List Turn :=
  exs.foldl (fun h e => updateConversationHistory h e.1 e.2) []

theorem toTurns_append (l₁ l₂ : List (String × String)) :
    toTurns (l₁ ++ l₂) = toTurns l₁ ++ toTurns l₂ := by
  induction l₁ with
  | nil => rfl
  | cons e rest ih => simp [toTurns, ih]

theorem toTurns_length (l : List (String × String)) :
    (toTurns l).length = 2 * l.length := by
  induction l with
  | nil => rfl
  | cons e rest ih => simp [toTurns, ih]; omega

theorem toTurns_drop_two (l : List (String × String)) :
    (toTurns l).drop 2 = toTurns (l.drop 1) := by
  cases l <;> simp [toTurns]

theorem historyOf_append (exs : List (String × String)) (e : String × String) :
    historyOf (exs ++ [e]) = updateConversationHistory (historyOf exs) e.1 e.2 := by
  simp [historyOf, List.foldl_append]

/-- Closed form of the conversation store: the history after a sequence of
exchanges is exactly the flattening of the last (at most) 10 exchanges. -/
theorem historyOf_eq (exs : List (String × String)) :
    historyOf exs = toTurns (exs.drop (exs.length - 10)) := by
  induction exs using List.reverseRecOn with
  | nil => rfl
  | append_singleton l e ih =>
    rw [historyOf_append, ih]
    simp only [updateConversationHistory]
    have hpair : toTurns (l.drop (l.length - 10)) ++
        [⟨"user", e.1⟩, ⟨"assistant", e.2⟩] =
        toTurns (l.drop (l.length - 10) ++ [e]) := by
      rw [toTurns_append]; rfl
    rw [hpair]
    have hlen2 : (toTurns (l.drop (l.length - 10) ++ [e])).length =
        2 * (l.length - (l.length - 10) + 1) := by
      rw [toTurns_length, List.length_append, List.length_drop]; simp
    by_cases hn : 10 ≤ l.length
    · rw [if_pos (by omega)]
      have hd2 : (toTurns (l.drop (l.length - 10) ++ [e])).length - 20 = 2 := by
        omega
      rw [hd2, toTurns_drop_two]
      have h1le : 1 ≤ (l.drop (l.length - 10)).length := by
        rw [List.length_drop]; omega
      rw [List.drop_append_of_le_length h1le]
      have hle : (l ++ [e]).length - 10 ≤ l.length := by
        simp only [List.length_append, List.length_singleton]; omega
      rw [List.drop_append_of_le_length hle]
      have hdd : (l.drop (l.length - 10)).drop 1 = l.drop ((l ++ [e]).length - 10) := by
        rw [List.drop_drop]
        congr 1
        simp only [List.length_append, List.length_singleton]
        omega
      rw [hdd]
    · rw [if_neg (by omega)]
      have h0 : l.length - 10 = 0 := by omega
      have h0' : (l ++ [e]).length - 10 = 0 := by
        simp only [List.length_append, List.length_singleton]; omega
      rw [h0, h0', List.drop_zero, List.drop_zero]

/-- Well-formedness of a history: even length, strictly alternating
user/assistant roles starting with a user turn. -/
def isWf : List Turn → Bool
  | [] => true
  | [_] => false
  | u :: a :: rest => u.role == "user" && a.role == "assistant" && isWf rest

theorem isWf_toTurns (l : List (String × String)) : isWf (toTurns l) = true := by
  induction l with
  | nil => rfl
  | cons e rest ih => simp [toTurns, isWf, ih]

/-- C2: For every user and every sequence of exchanges, the conversation
history never exceeds 20 turns; eviction is oldest-first, so the history is
always exactly the flattening of the latest at most 10 exchanges, and after
11 exchanges exactly the latest 10 exchanges (20 turns) remain. -/
theorem conversation_history_bounded (exs : List (String × String)) :
    (historyOf exs).length ≤ 20 ∧
    historyOf exs = toTurns (exs.drop (exs.length - 10)) ∧
    (exs.length = 11 →
      historyOf exs = toTurns (exs.drop 1) ∧ (historyOf exs).length = 20) := by
  have hkey := historyOf_eq exs
  have hlen : (historyOf exs).length = 2 * (exs.length - (exs.length - 10)) := by
    rw [hkey, toTurns_length, List.length_drop]
  refine ⟨by omega, hkey, fun h11 => ⟨?_, by omega⟩⟩
  rw [hkey, h11]

/-- C2 witness: a concrete run of 11 exchanges keeps exactly the latest 10. -/
theorem conversation_history_bounded_witness :
    (List.replicate 11 (("hi", "hello") : String × String)).length = 11 ∧
    historyOf (List.replicate 11 ("hi", "hello")) =
      toTurns ((List.replicate 11 (("hi", "hello") : String × String)).drop 1) ∧
    (historyOf (List.replicate 11 ("hi", "hello"))).length = 20 :=
  ⟨by decide,
   ((conversation_history_bounded (List.replicate 11 ("hi", "hello"))).2.2
      (by decide)).1,
   ((conversation_history_bounded (List.replicate 11 ("hi", "hello"))).2.2
      (by decide)).2⟩

/-- C10: after any sequence of append-exchange operations the history has
even length and strictly alternates roles, user then assistant, starting
with a user turn (this is exactly the `isWf` predicate). -/
theorem conversation_history_alternates (exs : List (String × String)) :
    isWf (historyOf exs) = true ∧ (historyOf exs).length % 2 = 0 := by
  rw [historyOf_eq]
  exact ⟨isWf_toTurns _, by rw [toTurns_length]; omega⟩

/-! ## User sessions map (`ServerlessAvatarPipeline.user_sessions`) -/

/-- The `user_sessions` dict, modelled as a total map defaulting to `[]`
(matching the read path `self.user_sessions.get(user_id, [])` and the lazy
creation `self.user_sessions[user_id] = []`). -/
def UserSessions : Type := String → List Turn

/-- Embedding of `_update_conversation_history` at the map level: look up
the user's history (treated as `[]` when absent) and update it. The Python
function contains no `await`, so under the single-threaded asyncio event
loop each call executes atomically: an interleaving of two concurrent
calls, at suspension-point granularity, is exactly one of the two serial
orders. -/
def appendExchange (s : UserSessions) (userId userMessage aiResponse : String) :
    UserSessions :=
  fun v =>
    if v = userId then updateConversationHistory (s userId) userMessage aiResponse
    else s v

theorem updateConversationHistory_small (h : List Turn) (um ar : String)
    (hm : h.length ≤ 18) :
    updateConversationHistory h um ar =
      h ++ [⟨"user", um⟩, ⟨"assistant", ar⟩] := by
  simp only [updateConversationHistory]
  rw [if_neg]
  simp only [List.length_append, List.length_cons, List.length_nil]
  omega

/-- C3: two append-exchange operations for the same user, executed in
either serial order (the only interleavings, since the source function has
no suspension point), leave exactly 4 turns — both serializations, no lost
update; an operation for one user leaves every other user's history
untouched, and operations for two distinct users commute. -/
theorem append_exchange_serializable (s : UserSessions) (u v : String)
    (m₁ r₁ m₂ r₂ c d : String) (h0 : s u = []) (hne : v ≠ u) :
    (appendExchange (appendExchange s u m₁ r₁) u m₂ r₂) u =
      toTurns [(m₁, r₁), (m₂, r₂)] ∧
    (appendExchange (appendExchange s u m₂ r₂) u m₁ r₁) u =
      toTurns [(m₂, r₂), (m₁, r₁)] ∧
    ((appendExchange (appendExchange s u m₁ r₁) u m₂ r₂) u).length = 4 ∧
    (appendExchange s u m₁ r₁) v = s v ∧
    appendExchange (appendExchange s u m₁ r₁) v c d =
      appendExchange (appendExchange s v c d) u m₁ r₁ := by
  have key : ∀ (a₁ b₁ a₂ b₂ : String),
      (appendExchange (appendExchange s u a₁ b₁) u a₂ b₂) u =
        toTurns [(a₁, b₁), (a₂, b₂)] := by
    intro a₁ b₁ a₂ b₂
    simp only [appendExchange, if_pos rfl, h0]
    rw [updateConversationHistory_small [] a₁ b₁ (by simp),
        updateConversationHistory_small _ a₂ b₂ (by simp)]
    simp [toTurns]
  refine ⟨key m₁ r₁ m₂ r₂, key m₂ r₂ m₁ r₁, ?_, ?_, ?_⟩
  · rw [key m₁ r₁ m₂ r₂]; rfl
  · simp [appendExchange, hne]
  · funext w
    by_cases hwu : w = u
    · subst hwu
      simp [appendExchange, hne, Ne.symm hne]
    · by_cases hwv : w = v
      · subst hwv
        simp [appendExchange, hne, hwu]
      · simp [appendExchange, hwu, hwv]

/-- C3 witness: two concrete exchanges for the same user starting from an
empty registry leave exactly 4 turns, in the first serialized order. -/
theorem append_exchange_serializable_witness :
    ((fun _ => [] : UserSessions) "alice" = []) ∧
    (appendExchange (appendExchange (fun _ => []) "alice" "hi" "hello")
        "alice" "bye" "goodbye") "alice" =
      toTurns [("hi", "hello"), ("bye", "goodbye")] ∧
    ((appendExchange (appendExchange (fun _ => []) "alice" "hi" "hello")
        "alice" "bye" "goodbye") "alice").length = 4 :=
  ⟨rfl,
   (append_exchange_serializable (fun _ => []) "alice" "bob" "hi" "hello"
      "bye" "goodbye" "c" "d" rfl (by decide)).1,
   (append_exchange_serializable (fun _ => []) "alice" "bob" "hi" "hello"
      "bye" "goodbye" "c" "d" rfl (by decide)).2.2.1⟩

/-! ## Connection manager (`main.py`, `ConnectionManager`) -/

/-- Per-user metadata kept by `ConnectionManager.user_metadata`. -/
structure UserMetadata where
  connectedAt : String
  messageCount : Nat
  lastActivity : String
deriving DecidableEq

/-- State of `ConnectionManager`: `active_connections` maps a user id to a
connection handle (modelled by a numeric id), `user_metadata` to metadata;
each `dict` is modelled as a total function into `Option`. -/
structure ConnManager where
  activeConnections : String → Option Nat
  userMetadata : String → Option UserMetadata

/-- Embedding of `ConnectionManager.disconnect`: delete the user's entry
from both maps when present (`del` guarded by `in`). -/
def disconnect (m : ConnManager) (userId : String) : ConnManager where
  activeConnections := fun v => if v = userId then none else m.activeConnections v
  userMetadata := fun v => if v = userId then none else m.userMetadata v

/-- Embedding of `ConnectionManager.send_personal_message`. `deliveryOk` is
the outcome of `websocket.send_text` (`false` = the await raised). On
successful delivery the user's `last_activity` is refreshed (a missing
metadata entry raises a `KeyError` inside the `try`, which the handler
turns into a disconnect); on delivery failure the user is disconnected;
when the user is not registered nothing happens. The Python method never
raises (every exception is caught), so the embedding returns only the new
state. -/
def sendPersonalMessage (m : ConnManager) (userId : String)
    (deliveryOk : Bool) (now : String) : ConnManager :=
  match m.activeConnections userId with
  | none => m
  | some _ =>
    match deliveryOk, m.userMetadata userId with
    | true, some md =>
      { m with userMetadata := fun v =>
          if v = userId then some { md with lastActivity := now }
          else m.userMetadata v }
    | true, none => disconnect m userId
    | false, _ => disconnect m userId

/-- C7: sending to a user after disconnecting them is a silent no-op — the
registry state is returned unchanged and no error is raised (the embedding
is total) — and disconnecting twice is idempotent: the second `disconnect`
returns exactly the state the first one produced. -/
theorem send_after_disconnect_noop (m : ConnManager) (u : String)
    (deliveryOk : Bool) (now : String) :
    sendPersonalMessage (disconnect m u) u deliveryOk now = disconnect m u ∧
    disconnect (disconnect m u) u = disconnect m u := by
  constructor
  · simp [sendPersonalMessage, disconnect]
  · have h1 : (disconnect (disconnect m u) u).activeConnections =
        (disconnect m u).activeConnections := by
      funext v
      by_cases h : v = u <;> simp [disconnect, h]
    have h2 : (disconnect (disconnect m u) u).userMetadata =
        (disconnect m u).userMetadata := by
      funext v
      by_cases h : v = u <;> simp [disconnect, h]
    cases hd : disconnect (disconnect m u) u
    cases hd' : disconnect m u
    simp_all

/-! ## Text-input handler (`main.py`, `handle_text_input`) -/

/-- Python `str.strip()`: remove leading and trailing whitespace. -/
def pyStrip (s : List Char) : List Char :=
  ((s.dropWhile Char.isWhitespace).reverse.dropWhile Char.isWhitespace).reverse

/-- Outbound envelope kinds sent by the text-input handler. -/
inductive OutMsg
  | errorMsg
  | processingMsg
  | textResponse
deriving DecidableEq

/-- Embedding of `handle_text_input`: read the `text` field (default `""`
via `message_data.get("text", "")`), strip it; if the result is empty, send
one error envelope and invoke no pipeline stage; otherwise send a
processing envelope, invoke the pipeline exactly once and send its result
(a text response on success, an error envelope on failure). Returns the
envelopes sent to the sender and the number of pipeline invocations. -/
def handleTextInput (textField : Option String) (pipelineOk : Bool) :
    List OutMsg × Nat :=
  let text := pyStrip (textField.getD "").data
  if text = [] then ([OutMsg.errorMsg], 0)
  else
    ([OutMsg.processingMsg,
      if pipelineOk then OutMsg.textResponse else OutMsg.errorMsg], 1)

/-- C8: a `text_input` message whose text is missing, empty, or whitespace
only (i.e. strips to the empty string) yields exactly one error envelope to
the sender and zero pipeline invocations. -/
theorem empty_text_input_rejected (textField : Option String)
    (pipelineOk : Bool) (h : pyStrip (textField.getD "").data = []) :
    handleTextInput textField pipelineOk = ([OutMsg.errorMsg], 0) := by
  simp only [handleTextInput]
  rw [if_pos h]

/-- C8 witness: a whitespace-only text field and a missing text field are
both rejected with one error envelope and zero pipeline invocations. -/
theorem empty_text_input_rejected_witness :
    pyStrip ((some "   ").getD "").data = [] ∧
    handleTextInput (some "   ") true = ([OutMsg.errorMsg], 0) ∧
    handleTextInput none false = ([OutMsg.errorMsg], 0) :=
  ⟨by decide,
   empty_text_input_rejected (some "   ") true (by decide),
   empty_text_input_rejected none false (by decide)⟩

/-! ## Speech synthesis text cleaning (`TTSService.synthesize_speech`) -/

/-- The truncation marker `"..."` appended by `synthesize_speech`. -/
def truncationMarker : List Char := ['.', '.', '.']

/-- Embedding of the text-cleaning step of `TTSService.synthesize_speech`:
`clean_text = text.strip()`; if its length exceeds 4000 it becomes
`clean_text[:4000] + "..."`; the result is what is forwarded to the
provider (`input=clean_text`). -/
def ttsCleanText (text : List Char) : List Char :=
  let cleanText := pyStrip text
  if cleanText.length > 4000 then cleanText.take 4000 ++ truncationMarker
  else cleanText

/-- C5: when the stripped text is longer than 4000 characters, exactly its
first 4000 characters plus the marker (4003 characters in total) are
forwarded to the provider; at 4000 characters or fewer the stripped text is
forwarded unchanged, without a marker. -/
theorem synthesize_truncates (text : List Char) :
    ((pyStrip text).length > 4000 →
      ttsCleanText text = (pyStrip text).take 4000 ++ truncationMarker ∧
      (ttsCleanText text).length = 4003) ∧
    ((pyStrip text).length ≤ 4000 → ttsCleanText text = pyStrip text) := by
  constructor
  · intro h
    have he : ttsCleanText text = (pyStrip text).take 4000 ++ truncationMarker := by
      simp only [ttsCleanText]
      rw [if_pos h]
    refine ⟨he, ?_⟩
    rw [he, List.length_append, List.length_take, truncationMarker]
    simp
    omega
  · intro h
    simp only [ttsCleanText]
    rw [if_neg (by omega)]

theorem dropWhile_replicate_of_not (p : Char → Bool) (n : Nat) (c : Char)
    (h : p c = false) :
    List.dropWhile p (List.replicate n c) = List.replicate n c := by
  cases n with
  | zero => rfl
  | succ k => simp [List.replicate, List.dropWhile, h]

theorem pyStrip_replicate_a (n : Nat) :
    pyStrip (List.replicate n 'a') = List.replicate n 'a' := by
  simp only [pyStrip]
  rw [dropWhile_replicate_of_not _ _ _ (by decide), List.reverse_replicate,
      dropWhile_replicate_of_not _ _ _ (by decide), List.reverse_replicate]

/-- C5 witness: a concrete 4001-character text is forwarded as its first
4000 characters plus the marker, 4003 characters in total. -/
theorem synthesize_truncates_witness :
    (pyStrip (List.replicate 4001 'a')).length > 4000 ∧
    ttsCleanText (List.replicate 4001 'a') =
      (pyStrip (List.replicate 4001 'a')).take 4000 ++ truncationMarker ∧
    (ttsCleanText (List.replicate 4001 'a')).length = 4003 :=
  have hgt : (pyStrip (List.replicate 4001 'a')).length > 4000 := by
    rw [pyStrip_replicate_a, List.length_replicate]; omega
  ⟨hgt, ((synthesize_truncates (List.replicate 4001 'a')).1 hgt).1,
   ((synthesize_truncates (List.replicate 4001 'a')).1 hgt).2⟩

/-! ## Avatar rendering (`DIDService`) and media cache -/

/-- Result dict of `DIDService.create_talking_avatar`. -/
structure AvatarResult where
  videoUrl : String
  originalUrl : Option String
  talkId : String
  status : String
  mock : Bool
deriving DecidableEq

/-- Status of one D-ID poll response (`data.get("status")`). -/
inductive PollStatus
  | done (resultUrl : String)
  | errorStatus (msg : String)
  | pending
deriving DecidableEq

/-- Timeout configured in `STTService.transcribe_audio` (seconds). The
source sets none: the OpenAI client is called with its defaults. -/
def transcribeTimeout : Option Nat := none

/-- Timeout configured in `LLMService.generate_response`: none. -/
def generateTimeout : Option Nat := none

/-- Timeout configured in `TTSService.synthesize_speech`: none. -/
def synthesizeTimeout : Option Nat := none

/-- Timeout of the httpx client in `DIDService._upload_audio`: 30s. -/
def uploadAudioTimeout : Option Nat := some 30

/-- Timeout of the httpx client in `DIDService.create_talking_avatar`
(the `POST /talks` submission): 60s. -/
def submitTalkTimeout : Option Nat := some 60

/-- `max_wait` of `DIDService._wait_for_completion`: 120s total. -/
def pollMaxWait : Nat := 120

/-- `asyncio.sleep(3)` between polls in `_wait_for_completion`. -/
def pollInterval : Nat := 3

/-- Embedding of `DIDService._wait_for_completion`: poll the talk status
while the elapsed time is below `pollMaxWait`, sleeping `pollInterval`
between polls; `done` returns the result URL, `error` raises, and running
out the time bound raises the timeout message — a single attempt, never a
retry. Elapsed time is idealized as `pollInterval` per iteration (each
request counted as instantaneous); `fuel` bounds the recursion and the
caller passes 41, which the time bound makes unreachable. -/
def waitForCompletion (poll : Nat → PollStatus) (t : Nat) (fuel : Nat) :
    Except String String :=
  match fuel with
  | 0 => .error "Video generation timeout"
  | fuel' + 1 =>
    if t < pollMaxWait then
      match poll t with
      | .done url => .ok url
      | .errorStatus msg => .error ("D-ID generation failed: " ++ msg)
      | .pending => waitForCompletion poll (t + pollInterval) fuel'
    else .error "Video generation timeout"

/-- Embedding of `DIDService._cache_video_to_azure`: `none` when blob
storage is unconfigured, when the video download from the provider is not
HTTP 200, or when the Azure upload raises (every exception is caught and
becomes `None`); otherwise the Azure/CDN URL. -/
def cacheVideoToAzure (blobConfigured : Bool) (downloadOk : Bool)
    (upload : Except String String) : Option String :=
  if blobConfigured then
    if downloadOk then
      match upload with
      | .ok url => some url
      | .error _ => none
    else none
  else none

/-- The mock URL returned when `DID_API_KEY` is unset. -/
def mockVideoUrl : String :=
  "https://sample-videos.com/zip/10/mp4/SampleVideo_1280x720_1mb.mp4"

/-- Outcomes of the external calls `DIDService.create_talking_avatar` makes
in one invocation: audio upload to D-ID (`_upload_audio`), talk submission
(`POST /talks`), the status of each poll of `GET /talks/id`, and the media
cache's download/upload sub-outcomes. -/
structure DIDOutcomes where
  uploadAudio : Except String String
  submitTalk : Except String String
  poll : Nat → PollStatus
  blobConfigured : Bool
  cacheDownloadOk : Bool
  cacheUpload : Except String String

/-- Embedding of `DIDService.create_talking_avatar`: with no API key a
marked mock result is returned; otherwise upload audio, submit the talk,
poll to completion, then attempt the best-effort Azure cache and fall back
to the provider URL (`azure_video_url or video_url`). A raised error of any
stage is wrapped as `Avatar generation failed: ...`. -/
def createTalkingAvatar (apiKeyConfigured : Bool) (o : DIDOutcomes) :
    Except String AvatarResult :=
  if apiKeyConfigured then
    match o.uploadAudio with
    | .error e => .error ("Avatar generation failed: " ++ e)
    | .ok _audioUrl =>
      match o.submitTalk with
      | .error e => .error ("Avatar generation failed: " ++ e)
      | .ok talkId =>
        match waitForCompletion o.poll 0 41 with
        | .error e => .error ("Avatar generation failed: " ++ e)
        | .ok videoUrl =>
          let azureVideoUrl :=
            cacheVideoToAzure o.blobConfigured o.cacheDownloadOk o.cacheUpload
          .ok { videoUrl := azureVideoUrl.getD videoUrl,
                originalUrl := some videoUrl, talkId := talkId,
                status := "completed", mock := false }
  else
    .ok { videoUrl := mockVideoUrl, originalUrl := none,
          talkId := "mock", status := "completed", mock := true }

/-! ## Pipeline orchestrator (`ServerlessAvatarPipeline`) -/

/-- Stub outcomes of the four stage services for one pipeline invocation:
each field is the value returned — or the exception message raised — by
`stt.transcribe_audio`, `llm.generate_response` (response text and token
count), `tts.synthesize_speech` (audio bytes) and
`did.create_talking_avatar` respectively. -/
structure StageOutcomes where
  stt : Except String String
  llm : Except String (String × Nat)
  tts : Except String (List Nat)
  did : Except String AvatarResult

/-- The dict returned by the pipeline entry points: the `"status":
"success"` shape or the `"status": "failed"` shape with error text and
timestamp. -/
inductive PipelineResult
  | success (transcribedText : Option String) (userInput : Option String)
      (aiResponseText : String) (avatarVideoUrl : String)
      (tokensUsed : Nat) (processingTime : String)
  | failure (error : String) (timestamp : String)
deriving DecidableEq

def PipelineResult.isSuccess : PipelineResult → Bool
  | .success _ _ _ _ _ _ => true
  | .failure _ _ => false

/-- One pipeline invocation observed from outside: its result, the user's
history after the call, and how many times each stage service was
invoked. -/
structure PipelineRun where
  result : PipelineResult
  history : List Turn
  sttCalls : Nat
  llmCalls : Nat
  ttsCalls : Nat
  didCalls : Nat
deriving DecidableEq

/-- Embedding of `ServerlessAvatarPipeline.process_audio_input` for one
user: inside one `try`, the stages run in order STT → LLM → history
update → TTS → avatar; the first exception short-circuits the rest and the
`except` returns the `failed` dict carrying the exception text and a
timestamp. `h` is the user's history before the call. -/
def processAudioInput (o : StageOutcomes) (h : List Turn) (now : String) :
    PipelineRun :=
  match o.stt with
  | .error e =>
    { result := .failure e now, history := h,
      sttCalls := 1, llmCalls := 0, ttsCalls := 0, didCalls := 0 }
  | .ok transcribedText =>
    match o.llm with
    | .error e =>
      { result := .failure e now, history := h,
        sttCalls := 1, llmCalls := 1, ttsCalls := 0, didCalls := 0 }
    | .ok (responseText, tokensUsed) =>
      let h' := updateConversationHistory h transcribedText responseText
      match o.tts with
      | .error e =>
        { result := .failure e now, history := h',
          sttCalls := 1, llmCalls := 1, ttsCalls := 1, didCalls := 0 }
      | .ok _audio =>
        match o.did with
        | .error e =>
          { result := .failure e now, history := h',
            sttCalls := 1, llmCalls := 1, ttsCalls := 1, didCalls := 1 }
        | .ok avatarResult =>
          { result := .success (some transcribedText) none responseText
              avatarResult.videoUrl tokensUsed now,
            history := h',
            sttCalls := 1, llmCalls := 1, ttsCalls := 1, didCalls := 1 }

/-- Embedding of `ServerlessAvatarPipeline.process_text_input`: identical
to the audio pipeline from the generation stage onward, with the
caller-supplied text in place of the transcription output and no STT call;
the success dict carries `user_input` instead of `transcribed_text`. -/
def processTextInput (o : StageOutcomes) (text : String) (h : List Turn)
    (now : String) : PipelineRun :=
  match o.llm with
  | .error e =>
    { result := .failure e now, history := h,
      sttCalls := 0, llmCalls := 1, ttsCalls := 0, didCalls := 0 }
  | .ok (responseText, tokensUsed) =>
    let h' := updateConversationHistory h text responseText
    match o.tts with
    | .error e =>
      { result := .failure e now, history := h',
        sttCalls := 0, llmCalls := 1, ttsCalls := 1, didCalls := 0 }
    | .ok _audio =>
      match o.did with
      | .error e =>
        { result := .failure e now, history := h',
          sttCalls := 0, llmCalls := 1, ttsCalls := 1, didCalls := 1 }
      | .ok avatarResult =>
        { result := .success none (some text) responseText
            avatarResult.videoUrl tokensUsed now,
          history := h',
          sttCalls := 0, llmCalls := 1, ttsCalls := 1, didCalls := 1 }

/-- C1: in both pipelines a stage failure short-circuits the remaining
stages — the result is `failure` with the error text and a timestamp, and
the result is `success` exactly when every stage succeeded (never a
partial success); in particular a transcription failure yields `failure`
without any call to generation, synthesis or avatar rendering. -/
theorem pipeline_short_circuits (o : StageOutcomes) (h : List Turn)
    (now text : String) :
    ((processAudioInput o h now).result.isSuccess = true ↔
      (o.stt.isOk && o.llm.isOk && o.tts.isOk && o.did.isOk) = true) ∧
    ((o.stt.isOk && o.llm.isOk && o.tts.isOk && o.did.isOk) = false →
      ∃ e, (processAudioInput o h now).result = .failure e now) ∧
    ((processTextInput o text h now).result.isSuccess = true ↔
      (o.llm.isOk && o.tts.isOk && o.did.isOk) = true) ∧
    ((o.llm.isOk && o.tts.isOk && o.did.isOk) = false →
      ∃ e, (processTextInput o text h now).result = .failure e now) ∧
    (∀ e, o.stt = .error e →
      (processAudioInput o h now).result = .failure e now ∧
      (processAudioInput o h now).llmCalls = 0 ∧
      (processAudioInput o h now).ttsCalls = 0 ∧
      (processAudioInput o h now).didCalls = 0) := by
  obtain ⟨stt, llm, tts, did⟩ := o
  cases stt <;> rcases llm with _ | ⟨r, k⟩ <;> cases tts <;> cases did <;>
    simp [processAudioInput, processTextInput, PipelineResult.isSuccess,
      Except.isOk, Except.toBool]

/-- C1 witness: with a concrete failing transcription stub, the audio
pipeline fails with that error and never calls the later stages. -/
theorem pipeline_short_circuits_witness :
    (StageOutcomes.mk (.error "Speech recognition failed: bad audio")
        (.ok ("hi", 5)) (.ok [1]) (.error "x")).stt =
      .error "Speech recognition failed: bad audio" ∧
    (processAudioInput
        (StageOutcomes.mk (.error "Speech recognition failed: bad audio")
          (.ok ("hi", 5)) (.ok [1]) (.error "x")) [] "t").result =
      .failure "Speech recognition failed: bad audio" "t" ∧
    (processAudioInput
        (StageOutcomes.mk (.error "Speech recognition failed: bad audio")
          (.ok ("hi", 5)) (.ok [1]) (.error "x")) [] "t").llmCalls = 0 ∧
    (processAudioInput
        (StageOutcomes.mk (.error "Speech recognition failed: bad audio")
          (.ok ("hi", 5)) (.ok [1]) (.error "x")) [] "t").ttsCalls = 0 ∧
    (processAudioInput
        (StageOutcomes.mk (.error "Speech recognition failed: bad audio")
          (.ok ("hi", 5)) (.ok [1]) (.error "x")) [] "t").didCalls = 0 :=
  have hmain := (pipeline_short_circuits
    (StageOutcomes.mk (.error "Speech recognition failed: bad audio")
      (.ok ("hi", 5)) (.ok [1]) (.error "x")) [] "t" "u").2.2.2.2
    "Speech recognition failed: bad audio" rfl
  ⟨rfl, hmain.1, hmain.2.1, hmain.2.2.1, hmain.2.2.2⟩

/-- C9: the conversation history is appended exactly when the generation
stage succeeds — a failure in synthesis or avatar rendering yields a
`failure` result while the exchange is already in the history, and a
failure in or before generation leaves the history unchanged (in the text
pipeline, generation is the first stage). -/
theorem history_updated_iff_generation_succeeds (o : StageOutcomes)
    (h : List Turn) (now text : String) :
    (∀ t r k, o.stt = .ok t → o.llm = .ok (r, k) →
      (processAudioInput o h now).history = updateConversationHistory h t r) ∧
    (o.stt.isOk = false ∨ o.llm.isOk = false →
      (processAudioInput o h now).history = h) ∧
    (∀ t r k, o.stt = .ok t → o.llm = .ok (r, k) →
      (o.tts.isOk = false ∨ o.did.isOk = false) →
      (processAudioInput o h now).history = updateConversationHistory h t r ∧
      ∃ e, (processAudioInput o h now).result = .failure e now) ∧
    (∀ r k, o.llm = .ok (r, k) →
      (processTextInput o text h now).history =
        updateConversationHistory h text r) ∧
    (o.llm.isOk = false → (processTextInput o text h now).history = h) := by
  obtain ⟨stt, llm, tts, did⟩ := o
  cases stt <;> rcases llm with _ | ⟨r, k⟩ <;> cases tts <;> cases did <;>
    simp [processAudioInput, processTextInput, Except.isOk, Except.toBool]

/-- C9 witness: with generation succeeding and synthesis failing, the
exchange is appended to the history while the run still fails. -/
theorem history_updated_iff_generation_succeeds_witness :
    (StageOutcomes.mk (.ok "hello") (.ok ("hi", 5)) (.error "tts down")
        (.ok ⟨"u", none, "id", "completed", false⟩)).stt = .ok "hello" ∧
    (StageOutcomes.mk (.ok "hello") (.ok ("hi", 5)) (.error "tts down")
        (.ok ⟨"u", none, "id", "completed", false⟩)).llm = .ok ("hi", 5) ∧
    (processAudioInput
        (StageOutcomes.mk (.ok "hello") (.ok ("hi", 5)) (.error "tts down")
          (.ok ⟨"u", none, "id", "completed", false⟩)) [] "t").history =
      updateConversationHistory [] "hello" "hi" ∧
    ∃ e, (processAudioInput
        (StageOutcomes.mk (.ok "hello") (.ok ("hi", 5)) (.error "tts down")
          (.ok ⟨"u", none, "id", "completed", false⟩)) [] "t").result =
      .failure e "t" :=
  have hmain := (history_updated_iff_generation_succeeds
    (StageOutcomes.mk (.ok "hello") (.ok ("hi", 5)) (.error "tts down")
      (.ok ⟨"u", none, "id", "completed", false⟩)) [] "t" "u").2.2.1
    "hello" "hi" 5 rfl rfl (Or.inl rfl)
  ⟨rfl, rfl, hmain.1, hmain.2⟩

/-- C6: when avatar rendering succeeds, the media-cache write-through is
best effort — whatever the cache sub-outcomes, `create_talking_avatar`
returns a completed result whose locator is the cache URL when available
and falls back to the provider's origin URL otherwise, and the pipeline
result is still a success carrying that locator. -/
theorem cache_failure_never_fails_pipeline (dp : DIDOutcomes)
    (o : StageOutcomes) (h : List Turn) (now text audioUrl talkId url : String)
    (r : String) (k : Nat) (audio : List Nat)
    (hup : dp.uploadAudio = .ok audioUrl) (hsub : dp.submitTalk = .ok talkId)
    (hpoll : waitForCompletion dp.poll 0 41 = .ok url)
    (hllm : o.llm = .ok (r, k)) (htts : o.tts = .ok audio)
    (hdid : o.did = createTalkingAvatar true dp) :
    ∃ res : AvatarResult,
      createTalkingAvatar true dp = .ok res ∧
      res.status = "completed" ∧
      res.videoUrl =
        (cacheVideoToAzure dp.blobConfigured dp.cacheDownloadOk
          dp.cacheUpload).getD url ∧
      (cacheVideoToAzure dp.blobConfigured dp.cacheDownloadOk dp.cacheUpload
          = none → res.videoUrl = url) ∧
      (processTextInput o text h now).result =
        .success none (some text) r res.videoUrl k now := by
  refine ⟨⟨(cacheVideoToAzure dp.blobConfigured dp.cacheDownloadOk
      dp.cacheUpload).getD url, some url, talkId, "completed", false⟩,
    ?_, rfl, rfl, ?_, ?_⟩
  · simp [createTalkingAvatar, hup, hsub, hpoll]
  · intro hnone; rw [hnone]; rfl
  · have hres : createTalkingAvatar true dp = .ok
        { videoUrl := (cacheVideoToAzure dp.blobConfigured
            dp.cacheDownloadOk dp.cacheUpload).getD url,
          originalUrl := some url, talkId := talkId,
          status := "completed", mock := false } := by
      simp [createTalkingAvatar, hup, hsub, hpoll]
    simp [processTextInput, hllm, htts, hdid, hres]

/-- C6 witness: with caching unconfigured (no blob service) and rendering
succeeding at the first poll, the pipeline succeeds and the locator is the
provider's origin URL. -/
theorem cache_failure_never_fails_pipeline_witness :
    (DIDOutcomes.mk (.ok "a") (.ok "id") (fun _ => .done "origin") false
        true (.error "no azure")).uploadAudio = .ok "a" ∧
    ∃ res : AvatarResult,
      createTalkingAvatar true
          (DIDOutcomes.mk (.ok "a") (.ok "id") (fun _ => .done "origin")
            false true (.error "no azure")) = .ok res ∧
      res.status = "completed" ∧
      res.videoUrl = (cacheVideoToAzure false true (.error "no azure")).getD
        "origin" ∧
      (cacheVideoToAzure false true (.error "no azure") = none →
        res.videoUrl = "origin") ∧
      (processTextInput
          (StageOutcomes.mk (.ok "x") (.ok ("hi", 5)) (.ok [1])
            (createTalkingAvatar true
              (DIDOutcomes.mk (.ok "a") (.ok "id") (fun _ => .done "origin")
                false true (.error "no azure"))))
          "q" [] "t").result =
        .success none (some "q") "hi" res.videoUrl 5 "t" :=
  ⟨rfl, cache_failure_never_fails_pipeline
    (DIDOutcomes.mk (.ok "a") (.ok "id") (fun _ => .done "origin") false
      true (.error "no azure"))
    (StageOutcomes.mk (.ok "x") (.ok ("hi", 5)) (.ok [1])
      (createTalkingAvatar true
        (DIDOutcomes.mk (.ok "a") (.ok "id") (fun _ => .done "origin")
          false true (.error "no azure"))))
    [] "t" "q" "a" "id" "origin" "hi" 5 [1] rfl rfl rfl rfl rfl rfl⟩

/-! ## Stage timeouts (C4) -/

theorem waitForCompletion_pending (poll : Nat → PollStatus)
    (hp : ∀ t, poll t = PollStatus.pending) :
    ∀ fuel t, waitForCompletion poll t fuel = .error "Video generation timeout" := by
  intro fuel
  induction fuel with
  | zero => intro t; rfl
  | succ n ih =>
    intro t
    simp only [waitForCompletion]
    by_cases hlt : t < pollMaxWait
    · rw [if_pos hlt, hp t]
      exact ih (t + pollInterval)
    · rw [if_neg hlt]

/-- C4 counterexample: it is not the case that every stage carries its own
timeout with the claimed values — transcription, generation and synthesis
configure no timeout at all, and the avatar submission client's timeout is
60s, not 30s. -/
theorem stage_timeouts_counterexample :
    ¬ (transcribeTimeout = some 30 ∧ generateTimeout = some 30 ∧
       synthesizeTimeout = some 30 ∧ submitTalkTimeout = some 30 ∧
       pollMaxWait = 120) := by
  intro hc
  exact Option.noConfusion hc.1

/-- C4 amended: only the avatar stage configures explicit timeouts — 30s
for the audio upload client, 60s for the talk-submission client, and a
poll loop bounded at 120s total with 3s intervals whose expiry is the
avatar stage's failure (wrapped into the pipeline `failure`); the other
stages configure none; and no stage is ever invoked more than once per
pipeline run (no automatic retry). -/
theorem stage_timeouts_amended :
    transcribeTimeout = none ∧ generateTimeout = none ∧
    synthesizeTimeout = none ∧ uploadAudioTimeout = some 30 ∧
    submitTalkTimeout = some 60 ∧ pollMaxWait = 120 ∧ pollInterval = 3 ∧
    (∀ dp : DIDOutcomes, ∀ a b : String, dp.uploadAudio = .ok a →
      dp.submitTalk = .ok b → (∀ t, dp.poll t = PollStatus.pending) →
      createTalkingAvatar true dp =
        .error "Avatar generation failed: Video generation timeout") ∧
    (∀ o h now, (processAudioInput o h now).sttCalls ≤ 1 ∧
      (processAudioInput o h now).llmCalls ≤ 1 ∧
      (processAudioInput o h now).ttsCalls ≤ 1 ∧
      (processAudioInput o h now).didCalls ≤ 1) := by
  refine ⟨rfl, rfl, rfl, rfl, rfl, rfl, rfl, ?_, ?_⟩
  · intro dp a b hup hsub hp
    simp [createTalkingAvatar, hup, hsub, waitForCompletion_pending dp.poll hp]
  · intro o h now
    obtain ⟨stt, llm, tts, did⟩ := o
    cases stt <;> rcases llm with _ | ⟨r, k⟩ <;> cases tts <;> cases did <;>
      simp [processAudioInput]

/-- C4 amended witness: a rendering job that is still pending at every poll
times out after the 120s bound and surfaces as the avatar stage's
failure. -/
theorem stage_timeouts_amended_witness :
    (DIDOutcomes.mk (.ok "a") (.ok "id") (fun _ => PollStatus.pending) false
        true (.ok "z")).uploadAudio = .ok "a" ∧
    createTalkingAvatar true
        (DIDOutcomes.mk (.ok "a") (.ok "id") (fun _ => PollStatus.pending)
          false true (.ok "z")) =
      .error "Avatar generation failed: Video generation timeout" :=
  ⟨rfl, stage_timeouts_amended.2.2.2.2.2.2.2.1
    (DIDOutcomes.mk (.ok "a") (.ok "id") (fun _ => PollStatus.pending) false
      true (.ok "z")) "a" "id" rfl rfl (fun _ => rfl)⟩

end AvatarAI
